import Mathlib

/-!
Verification of the dencho-cli local automation daemon
(src/rust-server/src/main.rs) against its natural-language design.

Shallow embedding: filesystem paths are lists of components; the process
environment (executable path, working directory, filesystem predicates,
environment variables, subprocess results) is a record `SysEnv`; every
function that spawns subprocesses also returns the ordered list of
`SpawnCall`s it performed, so idempotence / "no spawn" claims are about
that trace.
-/

namespace Dencho

/-- A filesystem path, as a list of components.  `[]` plays the role of a
root/empty path (the only path without a parent). -/
abbrev Path := List String

/-- `std::path::Path::parent`: `none` for the empty/root path, otherwise
drop the last component. -/
def pathParent (p : Path) : Option Path :=
  match p with
  | [] => none
  | _ => some p.dropLast

/-- `std::path::Path::file_name`: the last component, if any. -/
def pathFileName (p : Path) : Option String :=
  p.getLast?

/-- Rendering of a path for human-readable messages
(`Path::display` in the source). -/
def pathDisplay (p : Path) : String :=
  String.intercalate "/" p

/-- A value passed to a child process (argument or environment variable):
either a path or a plain string, kept structural so that path derivations
can be compared exactly. -/
inductive EnvValue where
  | pathv (p : Path)
  | strv (s : String)
deriving DecidableEq, Repr

/-- One subprocess invocation: program name, arguments, optional working
directory, and the extra environment variables set on the child. -/
structure SpawnCall where
  program : String
  args : List EnvValue
  cwd : Option Path
  envSet : List (String × EnvValue)
deriving DecidableEq, Repr

/-- Result of running a subprocess: the spawn itself can fail, or the
process exits with a success flag and captured stdout/stderr
(`status.success()`, `stdout`, `stderr`). -/
inductive CmdOutcome where
  | spawnError (msg : String)
  | exited (success : Bool) (stdout stderr : String)
deriving DecidableEq, Repr

/-- The ambient process environment the server reads:
OS calls (`current_exe`, `current_dir`), filesystem queries (`exists`,
non-emptiness of `read_dir`), environment variables `APPDATA` / `HOME`,
the compile-time target flag `cfg!(target_os = "windows")`, and the
behaviour of subprocesses (`runCmd` gives the outcome of each spawn). -/
structure SysEnv where
  current_exe : Except String Path
  current_dir : Except String Path
  pathExists : Path → Bool
  dirNonEmpty : Path → Bool
  appdata : Option String
  home : Option String
  targetWindows : Bool
  runCmd : SpawnCall → CmdOutcome

/-- The `DownloadRequest` JSON body: two independently optional
credential fields. -/
structure DownloadRequest where
  github_username : Option String
  github_password : Option String
deriving DecidableEq, Repr

/-- The JSON response `{status, message}`. -/
structure DownloadResponse where
  status : String
  message : String
deriving DecidableEq, Repr

/-- Fallback of `get_application_root` to the current working directory
(development mode). -/
def cwdFallback (env : SysEnv) : Except String Path :=
  match env.current_dir with
  | .error e => .error ("カレントディレクトリ取得失敗: " ++ e)
  | .ok cwd => .ok cwd

/-- `get_application_root`: take the executable's path; if its containing
directory is named `bin` and that directory's parent contains
`package.json`, return the parent (installed layout); otherwise fall back
to the current working directory (development layout). -/
def get_application_root (env : SysEnv) : Except String Path :=
  match env.current_exe with
  | .error e => .error ("実行ファイルパス取得失敗: " ++ e)
  | .ok exe_path =>
    match pathParent exe_path with
    | none => .error "実行ファイルディレクトリ取得失敗"
    | some exe_dir =>
      if pathFileName exe_dir = some "bin" then
        match pathParent exe_dir with
        | none => .error "アプリケーションルート取得失敗"
        | some app_root =>
          if env.pathExists (app_root ++ ["package.json"]) then
            .ok app_root
          else
            cwdFallback env
      else
        cwdFallback env

/-- Browser-cache base directory as derived by `check_and_setup_environment`
(step 3): `APPDATA`, falling back directly to `"."`. -/
def bootstrap_browsers_base (env : SysEnv) : String :=
  match env.appdata with
  | some a => a
  | none => "."

/-- Browser-cache base directory as derived by `download_invoice` before
spawning the child: `APPDATA`, falling back to `HOME`, falling back to
`"."`. -/
def task_browsers_base (env : SysEnv) : String :=
  match env.appdata with
  | some a => a
  | none =>
    match env.home with
    | some h => h
    | none => "."

/-- The fixed subpath appended to the platform data directory. -/
def browsersSubpath : List String := ["dencho-cli", "browsers"]

/-- Browser-cache path computed by Bootstrap Checker step 3. -/
def bootstrap_browsers_path (env : SysEnv) : Path :=
  bootstrap_browsers_base env :: browsersSubpath

/-- Browser-cache path injected by the Task Runner into the child. -/
def task_browsers_path (env : SysEnv) : Path :=
  task_browsers_base env :: browsersSubpath

/-- `Command::new("node").arg("--version")`: the interpreter-presence
probe, run unconditionally by `check_and_setup_environment`. -/
def nodeVersionCall : SpawnCall :=
  { program := "node", args := [.strv "--version"], cwd := none, envSet := [] }

/-- `npm.cmd` on Windows, `npm` elsewhere (`cfg!(target_os = "windows")`). -/
def npmCmdName (windows : Bool) : String :=
  if windows then "npm.cmd" else "npm"

/-- `npx.cmd` on Windows, `npx` elsewhere. -/
def npxCmdName (windows : Bool) : String :=
  if windows then "npx.cmd" else "npx"

/-- The `npm install` invocation of bootstrap step 2. -/
def npmInstallCall (env : SysEnv) (app_root : Path) : SpawnCall :=
  { program := npmCmdName env.targetWindows
    args := [.strv "install"]
    cwd := some app_root
    envSet := [] }

/-- The `npx playwright install chromium` invocation of bootstrap step 3,
with the browser-cache path injected via `PLAYWRIGHT_BROWSERS_PATH`. -/
def npxPlaywrightCall (env : SysEnv) (app_root : Path) : SpawnCall :=
  { program := npxCmdName env.targetWindows
    args := [.strv "playwright", .strv "install", .strv "chromium"]
    cwd := some app_root
    envSet := [("PLAYWRIGHT_BROWSERS_PATH", .pathv (bootstrap_browsers_path env))] }

/-- Bootstrap step 2: if `<root>/node_modules` is absent, run
`npm install` in `root`; non-success is fatal.  Returns the result and
the spawns performed by this step. -/
def depsStep (env : SysEnv) (app_root : Path) :
    Except String Unit × List SpawnCall :=
  if env.pathExists (app_root ++ ["node_modules"]) then
    (.ok (), [])
  else
    let call := npmInstallCall env app_root
    match env.runCmd call with
    | .spawnError _ => (.error "npm install に失敗しました", [call])
    | .exited ok _ _ =>
      if ok then (.ok (), [call]) else (.error "npm install に失敗しました", [call])

/-- Bootstrap step 3: if the browser-cache directory is absent or its
`read_dir` yields no entry, run `npx playwright install chromium`;
non-success is fatal. -/
def browserStep (env : SysEnv) (app_root : Path) :
    Except String Unit × List SpawnCall :=
  let bp := bootstrap_browsers_path env
  if env.pathExists bp && env.dirNonEmpty bp then
    (.ok (), [])
  else
    let call := npxPlaywrightCall env app_root
    match env.runCmd call with
    | .spawnError _ => (.error "Playwright ブラウザのインストールに失敗しました", [call])
    | .exited ok _ _ =>
      if ok then (.ok (), [call])
      else (.error "Playwright ブラウザのインストールに失敗しました", [call])

/-- `check_and_setup_environment`: resolve the root, then three ordered
short-circuiting checks — interpreter probe (`node --version`, always
spawned), dependency bundle (`node_modules`, install if absent), browser
binary (cache dir non-empty, install if absent/empty).  Returns the
result together with the ordered list of subprocess spawns. -/
def check_and_setup_environment (env : SysEnv) :
    Except String Unit × List SpawnCall :=
  match get_application_root env with
  | .error e => (.error e, [])
  | .ok app_root =>
    match env.runCmd nodeVersionCall with
    | .spawnError _ => (.error "Node.js が見つかりません", [nodeVersionCall])
    | .exited ok _ _ =>
      if !ok then
        (.error "Node.js が見つかりません", [nodeVersionCall])
      else
        match depsStep env app_root with
        | (.error e, s) => (.error e, nodeVersionCall :: s)
        | (.ok _, s2) =>
          match browserStep env app_root with
          | (.error e, s3) => (.error e, nodeVersionCall :: (s2 ++ s3))
          | (.ok _, s3) => (.ok (), nodeVersionCall :: (s2 ++ s3))

/-- The fixed success message returned on a zero exit. -/
def successMessage : String := "Supabase 請求書のダウンロードが完了しました"

/-- Conditional credential injection (`download_invoice`): the child's
extra environment is `PLAYWRIGHT_BROWSERS_PATH` always, then
`GITHUB_USERNAME` / `GITHUB_PASSWORD` each set only when the
corresponding field is `Some` and non-empty. -/
def build_child_env (env : SysEnv) (payload : DownloadRequest) :
    List (String × EnvValue) :=
  [("PLAYWRIGHT_BROWSERS_PATH", EnvValue.pathv (task_browsers_path env))]
    ++ (match payload.github_username with
        | some u => if u ≠ "" then [("GITHUB_USERNAME", EnvValue.strv u)] else []
        | none => [])
    ++ (match payload.github_password with
        | some p => if p ≠ "" then [("GITHUB_PASSWORD", EnvValue.strv p)] else []
        | none => [])

/-- The `node <script>` invocation built by `download_invoice`: working
directory is the application root, one positional argument (the script
path), and the environment of `build_child_env`. -/
def nodeScriptCall (env : SysEnv) (app_root script_path : Path)
    (payload : DownloadRequest) : SpawnCall :=
  { program := "node"
    args := [.pathv script_path]
    cwd := some app_root
    envSet := build_child_env env payload }

/-- Mapping of the child's outcome to HTTP status and response body:
exit 0 → 200 success with the fixed message (stdout ignored); non-zero
exit → 500 with the trimmed stderr; spawn failure → 500 with the spawn
error description. -/
def handle_output (o : CmdOutcome) : Nat × DownloadResponse :=
  match o with
  | .exited ok _stdout stderr =>
    if ok then
      (200, { status := "success", message := successMessage })
    else
      (500, { status := "error"
              message := "ダウンロードエラー: " ++ stderr.trim })
  | .spawnError e =>
    (500, { status := "error", message := "Node.js 実行エラー: " ++ e })

/-- `download_invoice` (Task Runner): resolve the root (failure → 500
without spawning), resolve `<root>/dist/download-supabase-invoice.js`
(missing → 500 naming the path, without spawning), otherwise spawn the
runtime once and map its outcome with `handle_output`.  The second
component is the list of subprocess spawns performed. -/
def download_invoice (env : SysEnv) (payload : DownloadRequest) :
    (Nat × DownloadResponse) × List SpawnCall :=
  match get_application_root env with
  | .error e =>
    ((500, { status := "error", message := "環境設定エラー: " ++ e }), [])
  | .ok app_root =>
    let script_path := app_root ++ ["dist", "download-supabase-invoice.js"]
    if !env.pathExists script_path then
      ((500, { status := "error"
               message := "スクリプトファイルが見つかりません: " ++ pathDisplay script_path }),
       [])
    else
      let call := nodeScriptCall env app_root script_path payload
      (handle_output (env.runCmd call), [call])

/-! ### JSON body handling (`axum::Json<DownloadRequest>` / serde) -/

/-- A JSON value. -/
inductive Json where
  | null
  | bool (b : Bool)
  | num (n : Int)
  | str (s : String)
  | arr (xs : List Json)
  | obj (kvs : List (String × Json))
deriving Repr

/-- serde deserialization of an `Option<String>` field: a missing key or
`null` is `none`, a string is `some`, anything else is a type error. -/
def deserOptString (v : Option Json) : Except String (Option String) :=
  match v with
  | none => .ok none
  | some .null => .ok none
  | some (.str s) => .ok (some s)
  | some _ => .error "invalid type: expected a string"

/-- serde deserialization of `DownloadRequest`: the body must be a JSON
object; `githubUsername` and `githubPassword` are each optional; keys
other than these two are ignored. -/
def deserDownloadRequest (j : Json) : Except String DownloadRequest :=
  match j with
  | .obj kvs =>
    match deserOptString (kvs.lookup "githubUsername"),
          deserOptString (kvs.lookup "githubPassword") with
    | .ok u, .ok p => .ok { github_username := u, github_password := p }
    | .error e, _ => .error e
    | _, .error e => .error e
  | _ => .error "invalid type: expected an object"

/-- The mandatory `Json<DownloadRequest>` extractor of the HTTP layer:
a request whose body is absent (or not parseable as JSON, represented
here as `none`) is rejected with a client error before the handler runs;
otherwise the body is deserialized with `deserDownloadRequest`. -/
def extractDownloadRequest (body : Option Json) :
    Except String DownloadRequest :=
  match body with
  | none => .error "missing or invalid JSON body rejected by extractor"
  | some j => deserDownloadRequest j

/-! ### Service lifecycle (`run_service` and the control handler) -/

/-- The Windows service states that can be reported. -/
inductive ServiceState where
  | starting
  | running
  | stopPending
  | stopped
deriving DecidableEq, Repr

/-- A status report to the OS: the state and the Win32 exit code. -/
structure StatusReport where
  current_state : ServiceState
  exit_code : Nat
deriving DecidableEq, Repr

/-- The inputs `run_service` depends on: whether control-handler
registration succeeds, whether the tokio runtime can be created, and the
outcome of the bootstrap check. -/
structure RunEnv where
  register : Except String Unit
  runtimeNew : Except String Unit
  bootstrap : Except String Unit

/-- Outcome of one `run_service` run: its `Result`, the ordered list of
status reports delivered to the OS, and whether the serving loop was
entered. -/
structure RunOutcome where
  result : Except String Unit
  reports : List StatusReport
  served : Bool
deriving Repr

/-- `run_service`: register the control handler (failure propagates with
no report); report `Running` with exit code 0; create the runtime; inside
`block_on`, a bootstrap failure logs and returns from the async block
only — execution then falls through to the final report — otherwise the
accept loop runs until it ends or shutdown is detected; finally report
`Stopped` with exit code 0 and return `Ok`. -/
def run_service (env : RunEnv) : RunOutcome :=
  match env.register with
  | .error e => { result := .error e, reports := [], served := false }
  | .ok _ =>
    let afterRunning : List StatusReport := [⟨.running, 0⟩]
    match env.runtimeNew with
    | .error e => { result := .error e, reports := afterRunning, served := false }
    | .ok _ =>
      let served := env.bootstrap.isOk
      { result := .ok ()
        reports := afterRunning ++ [⟨.stopped, 0⟩]
        served := served }

/-- The service control events the handler can receive. -/
inductive ServiceControl where
  | stop
  | interrogate
  | other
deriving DecidableEq, Repr

/-- The handler's acknowledgement values. -/
inductive HandlerResult where
  | noError
  | notImplemented
deriving DecidableEq, Repr

/-- A computation that either returns normally or panics
(`Result::unwrap` on `Err`). -/
inductive Outcome (α : Type) where
  | normal (a : α)
  | panicked
deriving DecidableEq, Repr

/-- `std::sync::mpsc::Sender::send`: succeeds while the receiving end is
alive, returns `SendError` once the receiver has been dropped. -/
def mpscSend (receiverAlive : Bool) : Except String Unit :=
  if receiverAlive then .ok () else .error "SendError: receiver disconnected"

/-- `Result::unwrap`: the value on `Ok`, a panic on `Err`. -/
def unwrapE {α : Type} (r : Except String α) : Outcome α :=
  match r with
  | .ok a => .normal a
  | .error _ => .panicked

/-- The service control handler closure: on `Stop` it unwraps
`shutdown_tx.send(())` and acknowledges `NoError`; on `Interrogate` it
acknowledges `NoError`; anything else is `NotImplemented`. -/
def event_handler (receiverAlive : Bool) (c : ServiceControl) :
    Outcome HandlerResult :=
  match c with
  | .stop =>
    match unwrapE (mpscSend receiverAlive) with
    | .normal _ => .normal .noError
    | .panicked => .panicked
  | .interrogate => .normal .noError
  | .other => .normal .notImplemented

/-! ### Concrete environments used to evaluate the model -/

/-- An installed-layout environment in which all three bootstrap checks
already pass: `node --version` succeeds, every queried path exists, the
browser-cache directory is non-empty. -/
def readyFsEnv : SysEnv where
  current_exe := .ok ["C:", "app", "bin", "dencho-cli.exe"]
  current_dir := .ok ["C:", "work"]
  pathExists := fun _ => true
  dirNonEmpty := fun _ => true
  appdata := some "C:/Users/u/AppData/Roaming"
  home := none
  targetWindows := true
  runCmd := fun _ => .exited true "" ""

/-- An environment with `APPDATA` unset but `HOME` set. -/
def homeOnlyEnv : SysEnv where
  current_exe := .ok ["C:", "app", "bin", "dencho-cli.exe"]
  current_dir := .ok ["C:", "work"]
  pathExists := fun _ => true
  dirNonEmpty := fun _ => true
  appdata := none
  home := some "/home/user"
  targetWindows := false
  runCmd := fun _ => .exited true "" ""

/-- An installed layout where `package.json` exists but the automation
script does not; every spawn would fail, so any reported spawn is
observable. -/
def noScriptEnv : SysEnv where
  current_exe := .ok ["C:", "app", "bin", "dencho-cli.exe"]
  current_dir := .ok ["C:", "work"]
  pathExists := fun p => p == ["C:", "app", "package.json"]
  dirNonEmpty := fun _ => false
  appdata := some "C:/Users/u/AppData/Roaming"
  home := none
  targetWindows := true
  runCmd := fun _ => .spawnError "spawn should not happen"

/-- A service run whose bootstrap check fails. -/
def bootFailRunEnv : RunEnv where
  register := .ok ()
  runtimeNew := .ok ()
  bootstrap := .error "Node.js が見つかりません"

/-- A service run in which everything succeeds. -/
def allOkRunEnv : RunEnv where
  register := .ok ()
  runtimeNew := .ok ()
  bootstrap := .ok ()

/-! ### C1 — bootstrap idempotence and the interpreter probe -/

/-- C1 (counterexample): in an environment where all three checks already
pass, `check_and_setup_environment` still performs one subprocess spawn —
the `node --version` interpreter probe — so the claimed "zero subprocess
spawns on the second run" is false. -/
theorem C1_counterexample_probe_always_spawned :
    check_and_setup_environment readyFsEnv = (.ok (), [nodeVersionCall]) ∧
    (check_and_setup_environment readyFsEnv).2 ≠ [] := by
  constructor
  · rfl
  · intro h
    simp [check_and_setup_environment, readyFsEnv, get_application_root,
      pathParent, pathFileName, depsStep, browserStep] at h

/-- C1 (amended): when the application root resolves, the interpreter
probe succeeds, the dependency directory exists and the browser-cache
directory exists and is non-empty, a run of `check_and_setup_environment`
succeeds and its spawn trace is exactly the single interpreter probe
`node --version`; the already-satisfied paths of the dependency and
browser checks spawn nothing. -/
theorem C1_second_run_single_probe (env : SysEnv) (app_root : Path)
    (out err : String)
    (hroot : get_application_root env = .ok app_root)
    (hnode : env.runCmd nodeVersionCall = .exited true out err)
    (hdeps : env.pathExists (app_root ++ ["node_modules"]) = true)
    (hbrow : env.pathExists (bootstrap_browsers_path env) = true)
    (hne : env.dirNonEmpty (bootstrap_browsers_path env) = true) :
    check_and_setup_environment env = (.ok (), [nodeVersionCall]) := by
  unfold check_and_setup_environment
  rw [hroot, hnode]
  simp [depsStep, browserStep, hdeps, hbrow, hne]

/-- C1 witness: the amended theorem evaluated on `readyFsEnv`. -/
theorem C1_second_run_single_probe_witness :
    check_and_setup_environment readyFsEnv = (.ok (), [nodeVersionCall]) :=
  C1_second_run_single_probe readyFsEnv ["C:", "app"] "" "" rfl rfl rfl rfl rfl

/-! ### C2 — bootstrap failure in service mode still reports Stopped -/

/-- C2 (counterexample): with registration and runtime creation
succeeding and the bootstrap check failing, `run_service` still reports
`Stopped` to the OS (the `return` leaves only the async block), so the
claim that it returns without reporting a terminal state is false. -/
theorem C2_counterexample_stopped_is_reported :
    (run_service bootFailRunEnv).reports =
      [⟨.running, 0⟩, ⟨.stopped, 0⟩] ∧
    StatusReport.mk ServiceState.stopped 0 ∈ (run_service bootFailRunEnv).reports := by
  refine ⟨rfl, ?_⟩
  decide

/-- C2 (amended): on bootstrap failure after the handler is registered
and `Running` reported, `run_service` skips the serving loop but still
falls through to report `Stopped` with exit code 0 and returns `Ok`; the
failure is only logged. -/
theorem C2_bootstrap_failure_still_stops (env : RunEnv) (e : String)
    (hreg : env.register = .ok ())
    (hrt : env.runtimeNew = .ok ())
    (hboot : env.bootstrap = .error e) :
    run_service env =
      { result := .ok ()
        reports := [⟨.running, 0⟩, ⟨.stopped, 0⟩]
        served := false } := by
  unfold run_service
  rw [hreg, hrt]
  simp [hboot, Except.isOk, Except.toBool]

/-- C2 witness: the amended theorem evaluated on `bootFailRunEnv`. -/
theorem C2_bootstrap_failure_still_stops_witness :
    run_service bootFailRunEnv =
      { result := .ok ()
        reports := [⟨.running, 0⟩, ⟨.stopped, 0⟩]
        served := false } :=
  C2_bootstrap_failure_still_stops bootFailRunEnv "Node.js が見つかりません"
    rfl rfl rfl

/-! ### C3 — which ServiceState transitions are actually reported -/

/-- C3 (counterexample): in a fully successful service run, the reported
statuses are exactly `Running` then `Stopped`; `Starting` is never
reported (nor is `StopPending`), so the claim that every transition of
Starting→Running→StopPending→Stopped is reported is false. -/
theorem C3_counterexample_starting_never_reported :
    (run_service allOkRunEnv).reports = [⟨.running, 0⟩, ⟨.stopped, 0⟩] ∧
    (¬ ∃ r ∈ (run_service allOkRunEnv).reports,
        r.current_state = ServiceState.starting) ∧
    (¬ ∃ r ∈ (run_service allOkRunEnv).reports,
        r.current_state = ServiceState.stopPending) := by
  refine ⟨rfl, ?_, ?_⟩ <;> decide

/-- C3 (amended): whenever the control handler registers and the runtime
is created, `run_service` reports exactly `Running` (immediately after
registration) and then `Stopped` (after the serving block ends),
regardless of the bootstrap outcome; `Starting` and `StopPending` are
never reported. -/
theorem C3_only_running_and_stopped (env : RunEnv)
    (hreg : env.register = .ok ())
    (hrt : env.runtimeNew = .ok ()) :
    (run_service env).reports = [⟨.running, 0⟩, ⟨.stopped, 0⟩] := by
  unfold run_service
  rw [hreg, hrt]
  rfl

/-- C3 witness: the amended theorem evaluated on `allOkRunEnv`. -/
theorem C3_only_running_and_stopped_witness :
    (run_service allOkRunEnv).reports = [⟨.running, 0⟩, ⟨.stopped, 0⟩] :=
  C3_only_running_and_stopped allOkRunEnv rfl rfl

/-! ### C4 — the two browser-cache path derivations -/

/-- C4 (counterexample): with `APPDATA` unset and `HOME=/home/user`, the
Task Runner derives `/home/user/dencho-cli/browsers` while the Bootstrap
Checker derives `./dencho-cli/browsers`, so the two derivations are not
the same function of the process environment. -/
theorem C4_counterexample_home_fallback_differs :
    task_browsers_path homeOnlyEnv = ["/home/user", "dencho-cli", "browsers"] ∧
    bootstrap_browsers_path homeOnlyEnv = [".", "dencho-cli", "browsers"] ∧
    task_browsers_path homeOnlyEnv ≠ bootstrap_browsers_path homeOnlyEnv := by
  refine ⟨rfl, rfl, ?_⟩
  decide

/-- C4 (amended): the Task Runner's injected browser-cache path (always
present under `PLAYWRIGHT_BROWSERS_PATH` in the child environment) and
Bootstrap Checker step 3's path agree exactly when `APPDATA` is set, or
`HOME` is unset, or `HOME` is `"."`; they differ in every environment
with `APPDATA` unset and `HOME` set to anything other than `"."` (the
Task Runner falls back to `HOME` then `"."`, the Bootstrap Checker
directly to `"."`). -/
theorem C4_derivations_agree_iff (env : SysEnv) (payload : DownloadRequest) :
    (task_browsers_path env = bootstrap_browsers_path env ↔
      (env.appdata.isSome = true ∨ env.home = none ∨ env.home = some ".")) ∧
    (build_child_env env payload).lookup "PLAYWRIGHT_BROWSERS_PATH"
      = some (EnvValue.pathv (task_browsers_path env)) := by
  constructor
  · cases h1 : env.appdata <;> cases h2 : env.home <;>
      simp [task_browsers_path, bootstrap_browsers_path,
        task_browsers_base, bootstrap_browsers_base, browsersSubpath, h1, h2]
  · simp [build_child_env, List.lookup]

/-! ### C5 — conditional credential environment variables -/

/-- C5 (confirmed): in the child environment built by the Task Runner,
`GITHUB_USERNAME` is set exactly when the request's username is present
and non-empty (and then to that value), and likewise for
`GITHUB_PASSWORD`; an absent or empty credential leaves the variable
unset, never set to the empty string. -/
theorem C5_credential_env_iff_present_nonempty
    (env : SysEnv) (payload : DownloadRequest) :
    ((build_child_env env payload).lookup "GITHUB_USERNAME"
      = match payload.github_username with
        | some u => if u = "" then none else some (EnvValue.strv u)
        | none => none) ∧
    ((build_child_env env payload).lookup "GITHUB_PASSWORD"
      = match payload.github_password with
        | some p => if p = "" then none else some (EnvValue.strv p)
        | none => none) := by
  obtain ⟨u, p⟩ := payload
  cases u with
  | none =>
    cases p with
    | none => simp [build_child_env, List.lookup]
    | some p =>
      by_cases hp : p = "" <;>
        simp [build_child_env, List.lookup, hp]
  | some u =>
    cases p with
    | none =>
      by_cases hu : u = "" <;>
        simp [build_child_env, List.lookup, hu]
    | some p =>
      by_cases hu : u = "" <;> by_cases hp : p = "" <;>
        simp [build_child_env, List.lookup, hu, hp]

/-! ### C6, C7 — the Task Runner's outcome mapping and missing script -/

/-- The script path resolved by `download_invoice` relative to the
application root. -/
def scriptPathOf (app_root : Path) : Path :=
  app_root ++ ["dist", "download-supabase-invoice.js"]

/-- When the root resolves and the script exists, `download_invoice`
spawns exactly the one `node <script>` call and maps its outcome with
`handle_output`. -/
lemma download_invoice_spawns_once (env : SysEnv) (payload : DownloadRequest)
    (app_root : Path)
    (hroot : get_application_root env = .ok app_root)
    (hscript : env.pathExists (scriptPathOf app_root) = true) :
    download_invoice env payload =
      (handle_output
        (env.runCmd (nodeScriptCall env app_root (scriptPathOf app_root) payload)),
       [nodeScriptCall env app_root (scriptPathOf app_root) payload]) := by
  unfold download_invoice
  rw [hroot]
  simp only [scriptPathOf] at hscript
  simp [hscript, scriptPathOf]

/-- C6 (confirmed): whenever the child is spawned, exit code 0 yields the
200 success response with the fixed message regardless of stdout;
non-zero exit yields the 500 error response whose message contains the
trimmed stderr; a spawn failure yields the 500 error response carrying
the spawn-failure description. -/
theorem C6_exit_code_mapping (env : SysEnv) (payload : DownloadRequest)
    (app_root : Path)
    (hroot : get_application_root env = .ok app_root)
    (hscript : env.pathExists (scriptPathOf app_root) = true) :
    (∀ so se,
      env.runCmd (nodeScriptCall env app_root (scriptPathOf app_root) payload)
          = .exited true so se →
        download_invoice env payload =
          ((200, ⟨"success", successMessage⟩),
           [nodeScriptCall env app_root (scriptPathOf app_root) payload])) ∧
    (∀ so se,
      env.runCmd (nodeScriptCall env app_root (scriptPathOf app_root) payload)
          = .exited false so se →
        download_invoice env payload =
          ((500, ⟨"error", "ダウンロードエラー: " ++ se.trim⟩),
           [nodeScriptCall env app_root (scriptPathOf app_root) payload]) ∧
        ∃ pre post,
          "ダウンロードエラー: " ++ se.trim = pre ++ se.trim ++ post) ∧
    (∀ e,
      env.runCmd (nodeScriptCall env app_root (scriptPathOf app_root) payload)
          = .spawnError e →
        download_invoice env payload =
          ((500, ⟨"error", "Node.js 実行エラー: " ++ e⟩),
           [nodeScriptCall env app_root (scriptPathOf app_root) payload])) := by
  refine ⟨?_, ?_, ?_⟩
  · intro so se hrun
    rw [download_invoice_spawns_once env payload app_root hroot hscript, hrun]
    rfl
  · intro so se hrun
    refine ⟨?_, "ダウンロードエラー: ", "", ?_⟩
    · rw [download_invoice_spawns_once env payload app_root hroot hscript, hrun]
      rfl
    · simp
  · intro e hrun
    rw [download_invoice_spawns_once env payload app_root hroot hscript, hrun]
    rfl

/-- C6 witness: on `readyFsEnv` (child exits 0), the response is the 200
success with the fixed message and the single spawn. -/
theorem C6_exit_code_mapping_witness :
    download_invoice readyFsEnv ⟨none, none⟩ =
      ((200, ⟨"success", successMessage⟩),
       [nodeScriptCall readyFsEnv ["C:", "app"]
          (scriptPathOf ["C:", "app"]) ⟨none, none⟩]) :=
  (C6_exit_code_mapping readyFsEnv ⟨none, none⟩ ["C:", "app"] rfl rfl).1 "" "" rfl

/-- C7 (confirmed): when the resolved script path does not exist, the
Task Runner returns the 500 error response naming the missing script
path and its spawn trace is empty. -/
theorem C7_missing_script_no_spawn (env : SysEnv) (payload : DownloadRequest)
    (app_root : Path)
    (hroot : get_application_root env = .ok app_root)
    (hmiss : env.pathExists (scriptPathOf app_root) = false) :
    download_invoice env payload =
      ((500, ⟨"error",
          "スクリプトファイルが見つかりません: " ++ pathDisplay (scriptPathOf app_root)⟩),
       []) := by
  unfold download_invoice
  rw [hroot]
  simp only [scriptPathOf] at hmiss ⊢
  simp [hmiss]

/-- C7 witness: on `noScriptEnv` the handler answers 500 naming the
script path and spawns nothing. -/
theorem C7_missing_script_no_spawn_witness :
    download_invoice noScriptEnv ⟨none, none⟩ =
      ((500, ⟨"error",
          "スクリプトファイルが見つかりません: " ++ pathDisplay (scriptPathOf ["C:", "app"])⟩),
       []) :=
  C7_missing_script_no_spawn noScriptEnv ⟨none, none⟩ ["C:", "app"] rfl rfl

/-! ### C8 — the Root Locator -/

lemma pathParent_of_ne_nil {p : Path} (h : p ≠ []) :
    pathParent p = some p.dropLast := by
  cases p with
  | nil => exact absurd rfl h
  | cons a l => rfl

lemma pathParent_concat (l : Path) (a : String) :
    pathParent (l ++ [a]) = some l := by
  rw [pathParent_of_ne_nil (by simp)]
  simp

lemma pathFileName_concat (l : Path) (a : String) :
    pathFileName (l ++ [a]) = some a := by
  simp [pathFileName]

lemma pathParent_append_two (l : Path) (a b : String) :
    pathParent (l ++ [a, b]) = some (l ++ [a]) := by
  rw [pathParent_of_ne_nil (by simp)]
  simp

/-- A development-layout run: the executable sits under `bin` but the
candidate root has no `package.json`. -/
def devEnv : SysEnv where
  current_exe := .ok ["C:", "app", "bin", "dencho-cli.exe"]
  current_dir := .ok ["C:", "work"]
  pathExists := fun _ => false
  dirNonEmpty := fun _ => false
  appdata := none
  home := none
  targetWindows := true
  runCmd := fun _ => .spawnError "no spawn"

/-- A run whose executable is not under a `bin` directory. -/
def consoleEnv : SysEnv where
  current_exe := .ok ["C:", "tools", "dencho-cli.exe"]
  current_dir := .ok ["C:", "work"]
  pathExists := fun _ => false
  dirNonEmpty := fun _ => false
  appdata := none
  home := none
  targetWindows := true
  runCmd := fun _ => .spawnError "no spawn"

/-- C8 (confirmed): if the executable's directory is named `bin` and that
directory's parent contains `package.json`, `get_application_root`
returns the parent; with the marker absent, or with the executable not
under `bin`, it returns the current working directory; and whenever the
executable path is obtained (non-empty) and the current directory is
obtained, the locator succeeds — it errors only when those OS calls
fail. -/
theorem C8_root_locator :
    (∀ (env : SysEnv) (root : Path) (x : String),
      env.current_exe = .ok (root ++ ["bin", x]) →
      env.pathExists (root ++ ["package.json"]) = true →
      get_application_root env = .ok root) ∧
    (∀ (env : SysEnv) (root : Path) (x : String) (cwd : Path),
      env.current_exe = .ok (root ++ ["bin", x]) →
      env.pathExists (root ++ ["package.json"]) = false →
      env.current_dir = .ok cwd →
      get_application_root env = .ok cwd) ∧
    (∀ (env : SysEnv) (p cwd : Path),
      env.current_exe = .ok p → p ≠ [] →
      pathFileName p.dropLast ≠ some "bin" →
      env.current_dir = .ok cwd →
      get_application_root env = .ok cwd) ∧
    (∀ (env : SysEnv) (p cwd : Path),
      env.current_exe = .ok p → p ≠ [] →
      env.current_dir = .ok cwd →
      ∃ r, get_application_root env = .ok r) := by
  refine ⟨?_, ?_, ?_, ?_⟩
  · intro env root x h1 h2
    simp [get_application_root, h1, pathParent_append_two, pathParent_concat,
      pathFileName_concat, h2]
  · intro env root x cwd h1 h2 hcwd
    simp [get_application_root, h1, pathParent_append_two, pathParent_concat,
      pathFileName_concat, h2, cwdFallback, hcwd]
  · intro env p cwd h1 hp hfn hcwd
    simp [get_application_root, h1, pathParent_of_ne_nil hp, hfn,
      cwdFallback, hcwd]
  · intro env p cwd h1 hp hcwd
    by_cases hb : pathFileName p.dropLast = some "bin"
    · have hne : p.dropLast ≠ [] := by
        intro hnil
        rw [hnil] at hb
        simp [pathFileName] at hb
      by_cases hm : env.pathExists (p.dropLast.dropLast ++ ["package.json"]) = true
      · exact ⟨p.dropLast.dropLast, by
          simp [get_application_root, h1, pathParent_of_ne_nil hp, hb,
            pathParent_of_ne_nil hne, hm]⟩
      · exact ⟨cwd, by
          simp [get_application_root, h1, pathParent_of_ne_nil hp, hb,
            pathParent_of_ne_nil hne, hm, cwdFallback, hcwd]⟩
    · exact ⟨cwd, by
        simp [get_application_root, h1, pathParent_of_ne_nil hp, hb,
          cwdFallback, hcwd]⟩

/-- C8 witness: the three layouts evaluated concretely — installed with
marker, installed without marker, and console layout. -/
theorem C8_root_locator_witness :
    get_application_root readyFsEnv = .ok ["C:", "app"] ∧
    get_application_root devEnv = .ok ["C:", "work"] ∧
    get_application_root consoleEnv = .ok ["C:", "work"] :=
  ⟨C8_root_locator.1 readyFsEnv ["C:", "app"] "dencho-cli.exe" rfl rfl,
   C8_root_locator.2.1 devEnv ["C:", "app"] "dencho-cli.exe" ["C:", "work"]
     rfl rfl rfl,
   C8_root_locator.2.2.1 consoleEnv ["C:", "tools", "dencho-cli.exe"]
     ["C:", "work"] rfl (by decide) (by decide) rfl⟩

/-! ### C9 — the download request body -/

/-- C9 (counterexample): a request with a missing (or non-JSON) body is
rejected by the mandatory JSON extractor before the handler runs; it is
not treated as a credential-less request, so the claim's "missing body
tolerated as no credentials" is false. -/
theorem C9_counterexample_missing_body_rejected :
    extractDownloadRequest none =
      .error "missing or invalid JSON body rejected by extractor" ∧
    extractDownloadRequest none ≠
      .ok { github_username := none, github_password := none } := by
  refine ⟨rfl, ?_⟩
  intro h
  exact Except.noConfusion h

/-- C9 (amended): both credential fields are independently omittable and
unknown keys are ignored; an empty JSON object deserializes to the
credential-less request, but a missing body is rejected by the extractor,
so the caller must send at least `{}`. -/
theorem C9_fields_optional_extras_ignored (u p k : String) (v : Json)
    (hk1 : k ≠ "githubUsername") (hk2 : k ≠ "githubPassword") :
    deserDownloadRequest (.obj []) = .ok ⟨none, none⟩ ∧
    deserDownloadRequest (.obj [("githubUsername", .str u)])
      = .ok ⟨some u, none⟩ ∧
    deserDownloadRequest (.obj [("githubPassword", .str p)])
      = .ok ⟨none, some p⟩ ∧
    deserDownloadRequest
        (.obj [(k, v), ("githubUsername", .str u), ("githubPassword", .str p)])
      = .ok ⟨some u, some p⟩ ∧
    extractDownloadRequest (some (.obj [])) = .ok ⟨none, none⟩ := by
  have hb1 : ("githubUsername" == k) = false :=
    beq_eq_false_iff_ne.mpr (Ne.symm hk1)
  have hb2 : ("githubPassword" == k) = false :=
    beq_eq_false_iff_ne.mpr (Ne.symm hk2)
  refine ⟨rfl, rfl, rfl, ?_, rfl⟩
  simp [deserDownloadRequest, List.lookup, hb1, hb2, deserOptString]

/-- C9 witness: the amended theorem at a concrete body with an extra
field and both credentials supplied. -/
theorem C9_fields_optional_extras_ignored_witness :
    deserDownloadRequest
        (.obj [("extra", .null), ("githubUsername", .str "alice"),
          ("githubPassword", .str "pw")])
      = .ok ⟨some "alice", some "pw"⟩ :=
  (C9_fields_optional_extras_ignored "alice" "pw" "extra" .null
    (by decide) (by decide)).2.2.2.1

/-! ### C10 — the stop-control handler's unwrap -/

/-- C10 (confirmed): a `Stop` control delivered while the shutdown
channel's receiver is alive is acknowledged with `NoError`; delivered
after the receiver is dropped, the `unwrap` of `send` panics; and the
handler panics in exactly that one situation, so it is panic-free
precisely under the precondition that the receiver still exists. -/
theorem C10_stop_handler_panics_iff_receiver_dead
    (alive : Bool) (c : ServiceControl) :
    event_handler true .stop = .normal .noError ∧
    event_handler false .stop = .panicked ∧
    (event_handler alive c = .panicked ↔ alive = false ∧ c = .stop) := by
  refine ⟨rfl, rfl, ?_⟩
  cases alive <;> cases c <;> simp [event_handler, mpscSend, unwrapE]

end Dencho
